import Mathlib

/-!
Shallow embedding of `src/cmd/substream-exchange/cli/root.go` from the
substreams-playground repository: the CLI argument handling of `runRoot`,
the per-block handler produced by `Pipeline.handlerFactory`, the
`loadStateFromDisk` startup path, and the pair-update print subscriber of
`setupPrintPairUpdates`.

The extractors, state builders, the `state.Builder` store, the subscription
hub and the RPC cache live outside `src/`; their observable behaviour at the
orchestration boundary (fallible steps returning either a result or an
error, `Flush` clearing the delta buffer, `WriteState`/`StoreBlock`/`Init`
being fallible) is modelled from the spec (sections 4.1 to 4.4) as oracle
functions supplied through `StepEnv`, so every theorem quantifies over what
those external components may return.  Machine integers are modelled as
`Nat`/`Int` with explicit reduction modulo `2 ^ 64` where Go's `uint64`
arithmetic wraps.
-/

namespace SubstreamPlayground

/-- Modulus of Go's `uint64` arithmetic. -/
def U64 : Nat := 2 ^ 64

/-- Go `uint64` addition (`p.startBlockNum+blockCount` in the handler wraps
modulo `2 ^ 64`). -/
def uadd (a b : Nat) : Nat := (a + b) % U64

/-- Accumulate a non-empty run of base-10 digit characters; `none` when a
non-digit character is met. -/
def decDigits : List Char → Nat → Option Nat
  | [], acc => some acc
  | c :: rest, acc =>
    if c.isDigit then decDigits rest (acc * 10 + (c.toNat - 48)) else none

/-- Sign handling of a base-10 integer literal: an optional leading `-` or
`+` followed by at least one digit. -/
def decSigned : List Char → Option Int
  | [] => none
  | '-' :: rest =>
    match rest with
    | [] => none
    | _ => (decDigits rest 0).map (fun m => -(m : Int))
  | '+' :: rest =>
    match rest with
    | [] => none
    | _ => (decDigits rest 0).map (fun m => (m : Int))
  | cs => (decDigits cs 0).map (fun m => (m : Int))

/-- Modelled from the Go standard library `strconv.ParseInt(s, 10, 64)` as
called by `runRoot`: parses an optionally signed base-10 literal and fails
(returns `none`, the `err != nil` path) when the string is malformed or the
value falls outside the `int64` range. -/
def parseInt64 (s : String) : Option Int :=
  match decSigned s.toList with
  | none => none
  | some v => if v < -(2 ^ 63) ∨ (2 ^ 63 - 1 : Int) < v then none else some v

/-- Go's `uint64(v)` conversion of an `int64` value: reduction modulo
`2 ^ 64`. -/
def toUint64 (v : Int) : Nat := (v % (U64 : Int)).toNat

/-- Outcome of `runRoot`'s positional-argument handling (root.go lines
39-46).  `panicIndexOutOfRange` models the Go runtime panic raised by an
out-of-range slice index. -/
inductive ArgParse where
  | panicIndexOutOfRange
  | invalidBlockCount (msg : String)
  | ok (blockCount : Nat)
deriving DecidableEq

/-- Block-count argument handling of `runRoot`: default 1000; `args[0]` is
parsed with `strconv.ParseInt(args[0], 10, 64)`; on parse failure the error
message is built from `args[1]` (not `args[0]`), which panics when only one
argument was given. -/
def parseBlockCountArgs (args : List String) : ArgParse :=
  match args with
  | [] => .ok 1000
  | arg0 :: rest =>
    match parseInt64 arg0 with
    | some v => .ok (toUint64 v)
    | none =>
      match rest with
      | arg1 :: _ => .invalidBlockCount ("invalid block count " ++ arg1)
      | [] => .panicIndexOutOfRange

/-- Modelled from the spec (section 3, Delta): the operation of a recorded
store mutation. -/
inductive DeltaOp where
  | create
  | update
  | delete
deriving DecidableEq

/-- Modelled from the spec (section 3, Delta): one observed single-key
mutation of a store during one block. -/
structure StateDelta where
  op : DeltaOp
  key : String
  oldValue : Option String
  newValue : Option String
deriving DecidableEq

/-- Modelled from the spec (section 4.1): the in-memory face of a
`state.Builder` store — a named key/value mapping plus the current block's
delta buffer. -/
structure Builder where
  name : String
  kv : List (String × String)
  deltas : List StateDelta
deriving DecidableEq

/-- Modelled from the spec (section 4.1, `Flush()`): clears the current
block's delta buffer and nothing else. -/
def Builder.flush (b : Builder) : Builder := { b with deltas := [] }

/-- The four stores created by `runRoot` (root.go line 96). -/
structure Stores where
  pairs : Builder
  total_pairs : Builder
  prices : Builder
  volume24h : Builder
deriving DecidableEq

/-- The store names registered by `runRoot`, in creation order. -/
def storeNames : List String := ["pairs", "total_pairs", "prices", "volume24h"]

/-- The handler's final clean-up loop `for _, s := range p.stores s.Flush()`
(root.go lines 281-283). -/
def flushAll (st : Stores) : Stores :=
  { pairs := st.pairs.flush, total_pairs := st.total_pairs.flush,
    prices := st.prices.flush, volume24h := st.volume24h.flush }

/-- Observable invocations performed by one call of the block handler, in
order. -/
inductive Event where
  | decode
  | extractPairs
  | buildPairs
  | broadcastEvt (topic : String) (deltas : List StateDelta)
  | extractReserves
  | buildPrices
  | extractSwaps
  | buildTotalPairs
  | buildVolume24h
  | storeBlockEvt (store : String)
  | flushEvt (store : String)
  | writeStateEvt (store : String)
  | cacheSaveEvt
deriving DecidableEq

/-- Result of one handler invocation: `ok` is Go's `nil`, `eof` is the
`io.EOF` sentinel returned at the stop transition, `err` is any other
non-nil error. -/
inductive HandlerResult where
  | ok
  | eof
  | err (msg : String)
deriving DecidableEq

/-- Output of one handler invocation: the Go error value, the stores as
left in memory (mutations are in place and are not rolled back), and the
invocation trace. -/
structure HandlerOut where
  result : HandlerResult
  stores : Stores
  events : List Event
deriving DecidableEq

/-- Oracles for the external components invoked by the handler.  Each field
is the outcome of the corresponding call for the block being processed;
`pairExtract` is `pairExtractor.Map(blk)`, `pairsBuild` is
`pairsStateBuilder.BuildState`, and so on.  `writeState` and `cacheSave`
describe outcomes of `WriteState`/`rpcCache.Save`, whose return values the
code discards (root.go lines 201-205); fallibility of the external calls is
modelled from the spec (sections 4.1 to 4.3). -/
structure StepEnv where
  pairExtract : Except String (List String)
  pairsBuild : List String → Builder → Except String Builder
  broadcast : String → List StateDelta → Except String Unit
  reservesExtract : Builder → Except String (List String)
  pricesBuild : List String → Builder → Builder → Except String Builder
  swapsExtract : Builder → Builder → Except String (List String)
  totalPairsBuild : List String → List String → Builder → Except String Builder
  volume24hBuild : List String → Builder → Except String Builder
  storeBlock : String → Builder → Except String Builder
  writeState : String → Except String Unit
  cacheSave : Except String Unit

/-- Result of the `for _, s := range p.stores StoreBlock` loop: the stores
after the calls that ran, the error of the failing call when one failed,
and the calls that were made. -/
structure SBOut where
  stores : Stores
  errMsg : Option String
  events : List Event
deriving DecidableEq

/-- Trace of a completed `StoreBlock` loop. -/
def sbTrace : List Event :=
  [.storeBlockEvt "pairs", .storeBlockEvt "total_pairs",
   .storeBlockEvt "prices", .storeBlockEvt "volume24h"]

/-- Trace of the final `Flush` loop. -/
def flushTrace : List Event :=
  [.flushEvt "pairs", .flushEvt "total_pairs",
   .flushEvt "prices", .flushEvt "volume24h"]

/-- Trace of the stop transition (root.go lines 196-207): `WriteState` on
every store, then `rpcCache.Save`.  The Go map iteration order is
unspecified; it is modelled in store-creation order, which no claim
distinguishes. -/
def writeStateTrace : List Event :=
  [.writeStateEvt "pairs", .writeStateEvt "total_pairs",
   .writeStateEvt "prices", .writeStateEvt "volume24h", .cacheSaveEvt]

/-- Steady-state events up to and including the `volume24h` build, with `d`
the pairs-store delta buffer as broadcast. -/
def preTrace (d : List StateDelta) : List Event :=
  [.decode, .extractPairs, .buildPairs, .broadcastEvt "pairs" d,
   .extractReserves, .buildPrices, .extractSwaps, .buildTotalPairs,
   .buildVolume24h]

/-- The `for _, s := range p.stores StoreBlock` loop (root.go lines
272-277): the first failing call's error is returned as-is (`return err`,
no added context); stores already processed keep their updates.  Modelled
in store-creation order. -/
def storeBlockAll (env : StepEnv) (st : Stores) : SBOut :=
  match env.storeBlock "pairs" st.pairs with
  | .error e => ⟨st, some e, [.storeBlockEvt "pairs"]⟩
  | .ok b1 =>
    match env.storeBlock "total_pairs" st.total_pairs with
    | .error e =>
      ⟨{ st with pairs := b1 }, some e,
       [.storeBlockEvt "pairs", .storeBlockEvt "total_pairs"]⟩
    | .ok b2 =>
      match env.storeBlock "prices" st.prices with
      | .error e =>
        ⟨{ st with pairs := b1, total_pairs := b2 }, some e,
         [.storeBlockEvt "pairs", .storeBlockEvt "total_pairs",
          .storeBlockEvt "prices"]⟩
      | .ok b3 =>
        match env.storeBlock "volume24h" st.volume24h with
        | .error e =>
          ⟨{ st with pairs := b1, total_pairs := b2, prices := b3 }, some e,
           [.storeBlockEvt "pairs", .storeBlockEvt "total_pairs",
            .storeBlockEvt "prices", .storeBlockEvt "volume24h"]⟩
        | .ok b4 =>
          ⟨{ pairs := b1, total_pairs := b2, prices := b3, volume24h := b4 },
           none, sbTrace⟩

/-- Steady-state body of the handler (root.go lines 210-290), translated
step for step: decode, pair extraction, pairs build, broadcast of the pairs
deltas (and only those) to the "pairs" topic, reserves extraction, prices
build, swaps extraction, total_pairs build, volume24h build, the
`StoreBlock` loop, then the `Flush` loop.  Error messages are the exact
`fmt.Errorf` format strings; note that the broadcast failure branch
discards the underlying error (`fmt.Errorf` without `%w` and without
arguments) and the `StoreBlock` branch returns the error unwrapped.
Mutations performed before a failing step are kept, as in the Go code where
the builders mutate the stores in place. -/
def steadyStep (env : StepEnv) (st : Stores) : HandlerOut :=
  match env.pairExtract with
  | .error e =>
    ⟨.err ("extracting pairs: " ++ e), st, [.decode, .extractPairs]⟩
  | .ok pairs =>
    match env.pairsBuild pairs st.pairs with
    | .error e =>
      ⟨.err ("processing pair cache: " ++ e), st,
       [.decode, .extractPairs, .buildPairs]⟩
    | .ok b1 =>
      match env.broadcast "pairs" b1.deltas with
      | .error _ =>
        ⟨.err "broadcasting deltas for topic [pairs]",
         { st with pairs := b1 },
         [.decode, .extractPairs, .buildPairs, .broadcastEvt "pairs" b1.deltas]⟩
      | .ok _ =>
        match env.reservesExtract b1 with
        | .error e =>
          ⟨.err ("processing reserves extractor: " ++ e),
           { st with pairs := b1 },
           [.decode, .extractPairs, .buildPairs,
            .broadcastEvt "pairs" b1.deltas, .extractReserves]⟩
        | .ok reserves =>
          match env.pricesBuild reserves b1 st.prices with
          | .error e =>
            ⟨.err ("pairs price building: " ++ e),
             { st with pairs := b1 },
             [.decode, .extractPairs, .buildPairs,
              .broadcastEvt "pairs" b1.deltas, .extractReserves, .buildPrices]⟩
          | .ok b2 =>
            match env.swapsExtract b1 b2 with
            | .error e =>
              ⟨.err ("swaps extractor: " ++ e),
               { st with pairs := b1, prices := b2 },
               [.decode, .extractPairs, .buildPairs,
                .broadcastEvt "pairs" b1.deltas, .extractReserves,
                .buildPrices, .extractSwaps]⟩
            | .ok swaps =>
              match env.totalPairsBuild pairs swaps st.total_pairs with
              | .error e =>
                ⟨.err ("processing total pairs: " ++ e),
                 { st with pairs := b1, prices := b2 },
                 [.decode, .extractPairs, .buildPairs,
                  .broadcastEvt "pairs" b1.deltas, .extractReserves,
                  .buildPrices, .extractSwaps, .buildTotalPairs]⟩
              | .ok b3 =>
                match env.volume24hBuild swaps st.volume24h with
                | .error e =>
                  ⟨.err ("volume24 builder: " ++ e),
                   { st with pairs := b1, prices := b2, total_pairs := b3 },
                   preTrace b1.deltas⟩
                | .ok b4 =>
                  match storeBlockAll env
                      { pairs := b1, total_pairs := b3, prices := b2,
                        volume24h := b4 } with
                  | ⟨st5, some e, evs⟩ =>
                    ⟨.err e, st5, preTrace b1.deltas ++ evs⟩
                  | ⟨st5, none, evs⟩ =>
                    ⟨.ok, flushAll st5, preTrace b1.deltas ++ evs ++ flushTrace⟩

/-- The per-block handler returned by `Pipeline.handlerFactory` (root.go
lines 192-291).  When `block.Number >= p.startBlockNum+blockCount` (uint64
arithmetic) it calls `WriteState` on every store and `rpcCache.Save` —
discarding both results — and returns the `io.EOF` sentinel; otherwise it
runs the steady-state body. -/
def handleBlock (env : StepEnv) (startBlockNum blockCount : Nat) (st : Stores)
    (blockNumber : Nat) : HandlerOut :=
  if uadd startBlockNum blockCount ≤ blockNumber then
    ⟨.eof, st, writeStateTrace⟩
  else
    steadyStep env st

/-- All steady-state steps of one block succeed under `env` starting from
stores `st`.  Helper mirroring the handler's step chain. -/
def stepsAllOk (env : StepEnv) (st : Stores) : Bool :=
  match env.pairExtract with
  | .error _ => false
  | .ok pairs =>
    match env.pairsBuild pairs st.pairs with
    | .error _ => false
    | .ok b1 =>
      match env.broadcast "pairs" b1.deltas with
      | .error _ => false
      | .ok _ =>
        match env.reservesExtract b1 with
        | .error _ => false
        | .ok reserves =>
          match env.pricesBuild reserves b1 st.prices with
          | .error _ => false
          | .ok b2 =>
            match env.swapsExtract b1 b2 with
            | .error _ => false
            | .ok swaps =>
              match env.totalPairsBuild pairs swaps st.total_pairs with
              | .error _ => false
              | .ok b3 =>
                match env.volume24hBuild swaps st.volume24h with
                | .error _ => false
                | .ok b4 =>
                  (storeBlockAll env
                    { pairs := b1, total_pairs := b3, prices := b2,
                      volume24h := b4 }).errMsg.isNone

/-- An event is a delta broadcast. -/
def isBroadcastEvt : Event → Bool
  | .broadcastEvt _ _ => true
  | _ => false

/-- An event is a delta broadcast on a topic other than "pairs". -/
def isNonPairsBroadcast : Event → Bool
  | .broadcastEvt t _ => t != "pairs"
  | _ => false

/-- The pair-update subscriber loop of `setupPrintPairUpdates` (root.go
lines 165-178): deltas whose key lacks the "pair" prefix are skipped
(`continue`), the others are printed.  The returned list is the sequence of
printed deltas for a delivered sequence. -/
def printPairUpdates : List StateDelta → List StateDelta
  | [] => []
  | d :: rest =>
    if !(d.key.startsWith "pair") then printPairUpdates rest
    else d :: printPairUpdates rest

/-- Outcome of the `loadStateFromDisk` loop: the returned error (if any)
and the stores on which `Init` was invoked. -/
structure LoadOut where
  result : Except String Unit
  initCalls : List String

/-- Body of `loadStateFromDisk` (root.go lines 294-301): `Init` each store,
returning on the first failure an error naming the failing store and the
block number.  The Go map iteration order is unspecified; it is modelled in
store-creation order. -/
def loadStateLoop (inits : String → Except String Unit) (startBlockNum : Nat) :
    List String → LoadOut
  | [] => ⟨Except.ok (), []⟩
  | s :: rest =>
    match inits s with
    | Except.error e =>
      ⟨Except.error ("could not load state for store " ++ s ++
        " at block num " ++ toString startBlockNum ++ ": " ++ e), [s]⟩
    | Except.ok _ =>
      let out := loadStateLoop inits startBlockNum rest
      ⟨out.result, s :: out.initCalls⟩

/-- `loadStateFromDisk(stores, uint64(startBlockNum))` over the four
configured stores. -/
def loadStateFromDisk (inits : String → Except String Unit)
    (startBlockNum : Nat) : LoadOut :=
  loadStateLoop inits startBlockNum storeNames

/-- Startup fragment of `runRoot` (root.go lines 48-52, 84-85, 101-106):
`rpcCache.Load(ctx)` is called with its result discarded (first argument),
then `forceLoadState` is set exactly when `startBlockNum > genesisBlock`
(`genesisBlock` is defined outside `src/` and is kept as a parameter), and
when set, `loadStateFromDisk` runs at `uint64(startBlockNum)`.  Returns the
startup error and the list of stores `Init` was invoked on. -/
def runRootSetup (_cacheLoad : Except String Unit)
    (inits : String → Except String Unit) (startBlockNum genesisBlock : Int) :
    Except String Unit × List String :=
  if genesisBlock < startBlockNum then
    ((loadStateFromDisk inits (toUint64 startBlockNum)).result,
     (loadStateFromDisk inits (toUint64 startBlockNum)).initCalls)
  else
    (Except.ok (), [])

/-- Empty store, as created by `state.New` at startup. -/
def emptyBuilder (n : String) : Builder := { name := n, kv := [], deltas := [] }

/-- The four stores as created at startup, before any block. -/
def st0 : Stores :=
  { pairs := emptyBuilder "pairs", total_pairs := emptyBuilder "total_pairs",
    prices := emptyBuilder "prices", volume24h := emptyBuilder "volume24h" }

/-- Oracle under which every external call succeeds and leaves the stores
unchanged. -/
def envOk : StepEnv :=
  { pairExtract := .ok []
    pairsBuild := fun _ b => .ok b
    broadcast := fun _ _ => .ok ()
    reservesExtract := fun _ => .ok []
    pricesBuild := fun _ _ b => .ok b
    swapsExtract := fun _ _ => .ok []
    totalPairsBuild := fun _ _ b => .ok b
    volume24hBuild := fun _ b => .ok b
    storeBlock := fun _ b => .ok b
    writeState := fun _ => .ok ()
    cacheSave := .ok () }

/-- A pair-creation delta as produced by the pairs state builder. -/
def pairDelta : StateDelta :=
  { op := .create, key := "pair:0x1", oldValue := none,
    newValue := some "reserves" }

/-- Pairs store after a successful pairs build that created one pair. -/
def pairsBuilt : Builder :=
  { name := "pairs", kv := [("pair:0x1", "reserves")], deltas := [pairDelta] }

/-- Oracle where pair extraction and the pairs build succeed (mutating the
pairs store and broadcasting its delta) and reserves extraction then
fails. -/
def envC1 : StepEnv :=
  { envOk with
    pairExtract := .ok ["0x1"]
    pairsBuild := fun _ _ => .ok pairsBuilt
    reservesExtract := fun _ => .error "boom" }

/-- Oracle where the pairs broadcast itself fails with an underlying
error. -/
def envC1b : StepEnv :=
  { envC1 with
    reservesExtract := fun _ => .ok []
    broadcast := fun _ _ => .error "hub down" }

/-- A price delta as produced by the prices state builder. -/
def priceDelta : StateDelta :=
  { op := .create, key := "price:0x1", oldValue := none, newValue := some "2" }

/-- Oracle of a fully successful block in which the prices build produces a
non-empty delta buffer. -/
def envC4 : StepEnv :=
  { envOk with
    pricesBuild := fun _ _ b =>
      .ok { b with kv := [("price:0x1", "2")], deltas := [priceDelta] } }

/-- Oracle where `WriteState` and `rpcCache.Save` both fail. -/
def envC5 : StepEnv :=
  { envOk with
    writeState := fun _ => .error "disk full"
    cacheSave := .error "save failed" }

/-- Store-`Init` oracle failing exactly on the "prices" store. -/
def initsFailPrices : String → Except String Unit :=
  fun s => if s = "prices" then .error "no checkpoint" else .ok ()

/-- When the `StoreBlock` loop completes without error its event list is
exactly `sbTrace`. -/
theorem storeBlockAll_none (env : StepEnv) (st : Stores) (st5 : Stores)
    (evs : List Event) (h : storeBlockAll env st = ⟨st5, none, evs⟩) :
    evs = sbTrace := by
  unfold storeBlockAll at h
  cases hp : env.storeBlock "pairs" st.pairs <;> rw [hp] at h
  · simp at h
  cases ht : env.storeBlock "total_pairs" st.total_pairs <;> rw [ht] at h
  · simp at h
  cases hr : env.storeBlock "prices" st.prices <;> rw [hr] at h
  · simp at h
  cases hv : env.storeBlock "volume24h" st.volume24h <;> rw [hv] at h
  · simp at h
  simp only [SBOut.mk.injEq] at h
  exact h.2.2.symm

/-- The `StoreBlock` loop never emits a broadcast event. -/
theorem storeBlockAll_no_broadcast (env : StepEnv) (st : Stores) :
    (storeBlockAll env st).events.filter isNonPairsBroadcast = [] ∧
    (storeBlockAll env st).events.filter isBroadcastEvt = [] := by
  unfold storeBlockAll
  cases env.storeBlock "pairs" st.pairs with
  | error e => exact ⟨rfl, rfl⟩
  | ok b1 =>
  cases env.storeBlock "total_pairs" st.total_pairs with
  | error e => exact ⟨rfl, rfl⟩
  | ok b2 =>
  cases env.storeBlock "prices" st.prices with
  | error e => exact ⟨rfl, rfl⟩
  | ok b3 =>
  cases env.storeBlock "volume24h" st.volume24h with
  | error e => exact ⟨rfl, rfl⟩
  | ok b4 => exact ⟨rfl, rfl⟩

/-- Master case analysis of the steady-state body: either every step
succeeded — then the result is `ok`, the event trace is the full trace, the
only broadcast is the pairs-delta broadcast, and every delta buffer was
flushed — or some step failed and the result is a non-nil `err`. -/
theorem steadyStep_cases (env : StepEnv) (st : Stores) :
    ((steadyStep env st).result = HandlerResult.ok ∧ stepsAllOk env st = true ∧
      (∃ d, (steadyStep env st).events = (preTrace d ++ sbTrace) ++ flushTrace ∧
        (steadyStep env st).events.filter isBroadcastEvt =
          [Event.broadcastEvt "pairs" d]) ∧
      (steadyStep env st).events.filter isNonPairsBroadcast = [] ∧
      (steadyStep env st).stores.pairs.deltas = [] ∧
      (steadyStep env st).stores.total_pairs.deltas = [] ∧
      (steadyStep env st).stores.prices.deltas = [] ∧
      (steadyStep env st).stores.volume24h.deltas = []) ∨
    (∃ msg, (steadyStep env st).result = HandlerResult.err msg ∧
      stepsAllOk env st = false ∧
      (steadyStep env st).events.filter isNonPairsBroadcast = []) := by
  unfold steadyStep stepsAllOk
  cases env.pairExtract with
  | error e => exact Or.inr ⟨_, rfl, rfl, rfl⟩
  | ok pairs =>
  dsimp only
  cases env.pairsBuild pairs st.pairs with
  | error e => exact Or.inr ⟨_, rfl, rfl, rfl⟩
  | ok b1 =>
  dsimp only
  cases env.broadcast "pairs" b1.deltas with
  | error e => exact Or.inr ⟨_, rfl, rfl, rfl⟩
  | ok u =>
  dsimp only
  cases env.reservesExtract b1 with
  | error e => exact Or.inr ⟨_, rfl, rfl, rfl⟩
  | ok reserves =>
  dsimp only
  cases env.pricesBuild reserves b1 st.prices with
  | error e => exact Or.inr ⟨_, rfl, rfl, rfl⟩
  | ok b2 =>
  dsimp only
  cases env.swapsExtract b1 b2 with
  | error e => exact Or.inr ⟨_, rfl, rfl, rfl⟩
  | ok swaps =>
  dsimp only
  cases env.totalPairsBuild pairs swaps st.total_pairs with
  | error e => exact Or.inr ⟨_, rfl, rfl, rfl⟩
  | ok b3 =>
  dsimp only
  cases env.volume24hBuild swaps st.volume24h with
  | error e => exact Or.inr ⟨_, rfl, rfl, rfl⟩
  | ok b4 =>
  dsimp only
  rcases hsb : storeBlockAll env
      { pairs := b1, total_pairs := b3, prices := b2, volume24h := b4 }
    with ⟨st5, em, evs⟩
  cases em with
  | some e =>
    refine Or.inr ⟨e, rfl, rfl, ?_⟩
    have hf := (storeBlockAll_no_broadcast env
      { pairs := b1, total_pairs := b3, prices := b2, volume24h := b4 }).1
    rw [hsb] at hf
    simp only [List.filter_append]
    rw [hf]
    rfl
  | none =>
    have hevs := storeBlockAll_none env _ _ _ hsb
    subst hevs
    exact Or.inl ⟨rfl, rfl, ⟨b1.deltas, rfl, rfl⟩, rfl, rfl, rfl, rfl, rfl⟩

/-- Below the stop threshold the handler runs the steady-state body. -/
theorem handleBlock_steady (env : StepEnv) (start bc : Nat) (st : Stores)
    (n : Nat) (hn : n < uadd start bc) :
    handleBlock env start bc st n = steadyStep env st := by
  unfold handleBlock
  rw [if_neg (Nat.not_le.mpr hn)]

/-- At or above the stop threshold the handler takes the stop branch. -/
theorem handleBlock_stop (env : StepEnv) (start bc : Nat) (st : Stores)
    (n : Nat) (h : uadd start bc ≤ n) :
    handleBlock env start bc st n = ⟨.eof, st, writeStateTrace⟩ := by
  unfold handleBlock
  rw [if_pos h]

/-- A successfully parsed block-count argument lies in the int64 range. -/
theorem parseInt64_int64_range (s : String) (v : Int)
    (h : parseInt64 s = some v) : -(2 ^ 63) ≤ v ∧ v ≤ 2 ^ 63 - 1 := by
  unfold parseInt64 at h
  rcases hd : decSigned s.toList with _ | w <;> rw [hd] at h
  · simp at h
  · dsimp only at h
    split at h
    · simp at h
    · rename_i hc
      push_neg at hc
      injection h with h
      subst h
      exact ⟨hc.1, hc.2⟩

/-- The `loadStateFromDisk` loop over a non-empty store list always calls
`Init` on at least one store. -/
theorem loadStateLoop_cons (inits : String → Except String Unit) (k : Nat)
    (s : String) (rest : List String) :
    (loadStateLoop inits k (s :: rest)).initCalls ≠ [] := by
  unfold loadStateLoop
  cases inits s <;> simp

/-- C9: when the program is invoked with exactly one positional argument
that does not parse as a base-10 int64, the error-reporting path indexes
`args[1]`, which is out of range for a one-element argument list, so the
command panics instead of returning the intended invalid-block-count
error. -/
theorem c9_one_bad_arg_panics (a : String) (h : parseInt64 a = none) :
    parseBlockCountArgs [a] = ArgParse.panicIndexOutOfRange := by
  simp [parseBlockCountArgs, h]

/-- Witness for C9 at the concrete argument list `["abc"]`. -/
theorem c9_one_bad_arg_panics_witness :
    parseInt64 "abc" = none ∧
    parseBlockCountArgs ["abc"] = ArgParse.panicIndexOutOfRange :=
  ⟨by decide, c9_one_bad_arg_panics "abc" (by decide)⟩

/-- C10: a negative parsed block-count argument becomes its value modulo
`2 ^ 64` (at least `2 ^ 63`) under Go's `uint64` conversion; the stop
threshold `startBlockNum + blockCount` is compared modulo `2 ^ 64` (the
handler returns the EOF sentinel exactly when the block number reaches it);
and a negative argument can wrap the threshold below `startBlockNum`, so
that the very first block triggers the stop transition. -/
theorem c10_negative_blockcount_wraps :
    (∀ s v, parseInt64 s = some v → v < 0 →
      (toUint64 v : Int) = v + 2 ^ 64 ∧ 2 ^ 63 ≤ toUint64 v) ∧
    (∀ env start bc st n,
      ((handleBlock env start bc st n).result = HandlerResult.eof ↔
        (start + bc) % 2 ^ 64 ≤ n)) ∧
    (∃ s v start, parseInt64 s = some v ∧ v < 0 ∧
      uadd start (toUint64 v) < start ∧
      (handleBlock envOk start (toUint64 v) st0 start).result =
        HandlerResult.eof) := by
  refine ⟨?_, ?_, ?_⟩
  · intro s v hs hneg
    have hr := parseInt64_int64_range s v hs
    have h64 : ((U64 : Nat) : Int) = 18446744073709551616 := by norm_num [U64]
    unfold toUint64
    rw [h64]
    constructor <;> [skip; skip] <;>
      · have hp63 : (2 : Int) ^ 63 = 9223372036854775808 := by norm_num
        have hp64 : (2 : Int) ^ 64 = 18446744073709551616 := by norm_num
        have hq63 : (2 : Nat) ^ 63 = 9223372036854775808 := by norm_num
        omega
  · intro env start bc st n
    have hu : uadd start bc = (start + bc) % 2 ^ 64 := rfl
    constructor
    · intro he
      rcases le_or_lt (uadd start bc) n with hle | hlt
      · rw [← hu]; exact hle
      · exfalso
        rw [handleBlock_steady env start bc st n hlt] at he
        rcases steadyStep_cases env st with ⟨hok, _⟩ | ⟨m, herr, _⟩
        · exact HandlerResult.noConfusion (hok.symm.trans he)
        · exact HandlerResult.noConfusion (herr.symm.trans he)
    · intro hle
      rw [handleBlock_stop env start bc st n (hu ▸ hle)]
  · exact ⟨"-1", -1, 100, by decide, by decide, by decide, by decide⟩

/-- Witness for C10 at the concrete argument "-1". -/
theorem c10_negative_blockcount_wraps_witness :
    (toUint64 (-1) : Int) = -1 + 2 ^ 64 ∧ 2 ^ 63 ≤ toUint64 (-1) :=
  c10_negative_blockcount_wraps.1 "-1" (-1) (by decide) (by decide)

/-- C2: for every block at or above `startBlockNum + blockCount` the
handler performs no decode, extraction or state-building; it invokes
`WriteState` on every configured store and saves the external call cache,
and returns the EOF sentinel, which is distinct from both success and
failure results. -/
theorem c2_stop_transition (env : StepEnv) (start bc : Nat) (st : Stores)
    (n : Nat) (h : uadd start bc ≤ n) :
    handleBlock env start bc st n =
      ⟨HandlerResult.eof, st, writeStateTrace⟩ ∧
    (∀ s, s ∈ storeNames → Event.writeStateEvt s ∈ writeStateTrace) ∧
    Event.cacheSaveEvt ∈ writeStateTrace ∧
    Event.decode ∉ writeStateTrace ∧
    Event.extractPairs ∉ writeStateTrace ∧
    Event.buildPairs ∉ writeStateTrace ∧
    Event.buildPrices ∉ writeStateTrace ∧
    (∀ msg, HandlerResult.eof ≠ HandlerResult.err msg) ∧
    HandlerResult.eof ≠ HandlerResult.ok :=
  ⟨handleBlock_stop env start bc st n h, by decide, by decide, by decide,
   by decide, by decide, by decide,
   fun _ h2 => HandlerResult.noConfusion h2,
   fun h2 => HandlerResult.noConfusion h2⟩

/-- Witness for C2 at block 7 with threshold 0 + 5. -/
theorem c2_stop_transition_witness :
    handleBlock envOk 0 5 st0 7 = ⟨HandlerResult.eof, st0, writeStateTrace⟩ :=
  (c2_stop_transition envOk 0 5 st0 7 (by decide)).1

/-- C7: checkpoint state is loaded from disk iff the configured start block
is strictly above genesis; on resume, when every `Init` succeeds it is
invoked on every configured store, and an `Init` failure aborts startup
with an error naming the failing store and the block height. -/
theorem c7_startup_state_load (cl : Except String Unit)
    (inits : String → Except String Unit) (start genesis : Int) :
    ((runRootSetup cl inits start genesis).2 ≠ [] ↔ genesis < start) ∧
    (genesis < start → (∀ s, s ∈ storeNames → inits s = Except.ok ()) →
      runRootSetup cl inits start genesis = (Except.ok (), storeNames)) ∧
    (genesis < start →
      ∀ s e, s ∈ storeNames → inits s = Except.error e →
        ∃ s2 e2, inits s2 = Except.error e2 ∧ s2 ∈ storeNames ∧
          (runRootSetup cl inits start genesis).1 =
            Except.error ("could not load state for store " ++ s2 ++
              " at block num " ++ toString (toUint64 start) ++ ": " ++ e2)) := by
  unfold runRootSetup
  by_cases hg : genesis < start
  · rw [if_pos hg]
    refine ⟨iff_of_true (loadStateLoop_cons inits (toUint64 start) "pairs" _) hg,
      ?_, ?_⟩
    · intro _ hin
      have hp := hin "pairs" (by decide)
      have ht := hin "total_pairs" (by decide)
      have hr := hin "prices" (by decide)
      have hv := hin "volume24h" (by decide)
      simp [loadStateFromDisk, storeNames, loadStateLoop, hp, ht, hr, hv]
    · intro _ s e hs he
      cases hp : inits "pairs" with
      | error e2 =>
        exact ⟨"pairs", e2, hp, by decide,
          by simp [loadStateFromDisk, storeNames, loadStateLoop, hp]⟩
      | ok u =>
      cases ht : inits "total_pairs" with
      | error e2 =>
        exact ⟨"total_pairs", e2, ht, by decide,
          by simp [loadStateFromDisk, storeNames, loadStateLoop, hp, ht]⟩
      | ok u2 =>
      cases hr : inits "prices" with
      | error e2 =>
        exact ⟨"prices", e2, hr, by decide,
          by simp [loadStateFromDisk, storeNames, loadStateLoop, hp, ht, hr]⟩
      | ok u3 =>
      cases hv : inits "volume24h" with
      | error e2 =>
        exact ⟨"volume24h", e2, hv, by decide,
          by simp [loadStateFromDisk, storeNames, loadStateLoop, hp, ht, hr, hv]⟩
      | ok u4 =>
        exfalso
        simp only [storeNames, List.mem_cons, List.not_mem_nil, or_false] at hs
        rcases hs with rfl | rfl | rfl | rfl
        · exact Except.noConfusion (hp.symm.trans he)
        · exact Except.noConfusion (ht.symm.trans he)
        · exact Except.noConfusion (hr.symm.trans he)
        · exact Except.noConfusion (hv.symm.trans he)
  · rw [if_neg hg]
    exact ⟨by simp [hg], fun h => absurd h hg, fun h => absurd h hg⟩

/-- Witness for C7: resuming at start block 5 past genesis 0 with the
"prices" store failing to `Init`. -/
theorem c7_startup_state_load_witness :
    ∃ s2 e2, initsFailPrices s2 = Except.error e2 ∧ s2 ∈ storeNames ∧
      (runRootSetup (Except.ok ()) initsFailPrices 5 0).1 =
        Except.error ("could not load state for store " ++ s2 ++
          " at block num " ++ toString (toUint64 5) ++ ": " ++ e2) :=
  (c7_startup_state_load (Except.ok ()) initsFailPrices 5 0).2.2 (by decide)
    "prices" "no checkpoint" (by decide) rfl

/-- C8: the subscriber registered on topic "pairs" prints exactly the
delivered deltas whose key starts with "pair": such a delta is always
printed and a delta without the prefix is always skipped. -/
theorem c8_print_pair_updates (ds : List StateDelta) (d : StateDelta) :
    printPairUpdates ds = ds.filter (fun x => x.key.startsWith "pair") ∧
    (d ∈ printPairUpdates ds ↔ d ∈ ds ∧ d.key.startsWith "pair" = true) := by
  have hf : ∀ l : List StateDelta,
      printPairUpdates l = l.filter (fun x => x.key.startsWith "pair") := by
    intro l
    induction l with
    | nil => rfl
    | cons x rest ih =>
      by_cases hx : x.key.startsWith "pair"
      · simp [printPairUpdates, hx, ih]
      · simp [printPairUpdates, hx, ih]
  refine ⟨hf ds, ?_⟩
  rw [hf ds]
  simp [List.mem_filter]

/-- C1 is false as stated: with a failing reserves extraction the handler
does return an error, yet the pairs-store state differs from its state
before the block and the pairs deltas were already broadcast — a
partial-block commit remains; moreover a broadcast failure yields the fixed
message "broadcasting deltas for topic [pairs]", which does not wrap the
underlying "hub down" error. -/
theorem c1_counterexample :
    (handleBlock envC1 0 10 st0 0).result =
      HandlerResult.err "processing reserves extractor: boom" ∧
    (handleBlock envC1 0 10 st0 0).stores.pairs.kv ≠ st0.pairs.kv ∧
    Event.broadcastEvt "pairs" [pairDelta] ∈
      (handleBlock envC1 0 10 st0 0).events ∧
    (handleBlock envC1b 0 10 st0 0).result =
      HandlerResult.err "broadcasting deltas for topic [pairs]" := by
  decide

/-- C1 (amended): if any steady-state step fails the handler returns a
non-nil error: extraction and state-build failures are wrapped with a
step-specific context message, the pairs-broadcast failure is replaced by a
fixed message that drops the underlying error, and `StoreBlock` failures
are returned without added context.  Mutations already performed by earlier
steps of the same block (store updates and the pairs broadcast) are kept —
there is no rollback. -/
theorem c1_step_failure_propagation (env : StepEnv) (start bc : Nat)
    (st : Stores) (n : Nat) (hn : n < uadd start bc) :
    (∀ e, env.pairExtract = .error e →
      handleBlock env start bc st n =
        ⟨.err ("extracting pairs: " ++ e), st, [.decode, .extractPairs]⟩) ∧
    (∀ ps e, env.pairExtract = .ok ps →
      env.pairsBuild ps st.pairs = .error e →
      handleBlock env start bc st n =
        ⟨.err ("processing pair cache: " ++ e), st,
         [.decode, .extractPairs, .buildPairs]⟩) ∧
    (∀ ps b1 e, env.pairExtract = .ok ps →
      env.pairsBuild ps st.pairs = .ok b1 →
      env.broadcast "pairs" b1.deltas = .error e →
      handleBlock env start bc st n =
        ⟨.err "broadcasting deltas for topic [pairs]",
         { st with pairs := b1 },
         [.decode, .extractPairs, .buildPairs,
          .broadcastEvt "pairs" b1.deltas]⟩) ∧
    (∀ ps b1 e, env.pairExtract = .ok ps →
      env.pairsBuild ps st.pairs = .ok b1 →
      env.broadcast "pairs" b1.deltas = .ok () →
      env.reservesExtract b1 = .error e →
      handleBlock env start bc st n =
        ⟨.err ("processing reserves extractor: " ++ e),
         { st with pairs := b1 },
         [.decode, .extractPairs, .buildPairs,
          .broadcastEvt "pairs" b1.deltas, .extractReserves]⟩) ∧
    (∀ ps b1 rs e, env.pairExtract = .ok ps →
      env.pairsBuild ps st.pairs = .ok b1 →
      env.broadcast "pairs" b1.deltas = .ok () →
      env.reservesExtract b1 = .ok rs →
      env.pricesBuild rs b1 st.prices = .error e →
      handleBlock env start bc st n =
        ⟨.err ("pairs price building: " ++ e),
         { st with pairs := b1 },
         [.decode, .extractPairs, .buildPairs,
          .broadcastEvt "pairs" b1.deltas, .extractReserves, .buildPrices]⟩) ∧
    (∀ ps b1 rs b2 e, env.pairExtract = .ok ps →
      env.pairsBuild ps st.pairs = .ok b1 →
      env.broadcast "pairs" b1.deltas = .ok () →
      env.reservesExtract b1 = .ok rs →
      env.pricesBuild rs b1 st.prices = .ok b2 →
      env.swapsExtract b1 b2 = .error e →
      handleBlock env start bc st n =
        ⟨.err ("swaps extractor: " ++ e),
         { st with pairs := b1, prices := b2 },
         [.decode, .extractPairs, .buildPairs,
          .broadcastEvt "pairs" b1.deltas, .extractReserves, .buildPrices,
          .extractSwaps]⟩) ∧
    (∀ ps b1 rs b2 sw e, env.pairExtract = .ok ps →
      env.pairsBuild ps st.pairs = .ok b1 →
      env.broadcast "pairs" b1.deltas = .ok () →
      env.reservesExtract b1 = .ok rs →
      env.pricesBuild rs b1 st.prices = .ok b2 →
      env.swapsExtract b1 b2 = .ok sw →
      env.totalPairsBuild ps sw st.total_pairs = .error e →
      handleBlock env start bc st n =
        ⟨.err ("processing total pairs: " ++ e),
         { st with pairs := b1, prices := b2 },
         [.decode, .extractPairs, .buildPairs,
          .broadcastEvt "pairs" b1.deltas, .extractReserves, .buildPrices,
          .extractSwaps, .buildTotalPairs]⟩) ∧
    (∀ ps b1 rs b2 sw b3 e, env.pairExtract = .ok ps →
      env.pairsBuild ps st.pairs = .ok b1 →
      env.broadcast "pairs" b1.deltas = .ok () →
      env.reservesExtract b1 = .ok rs →
      env.pricesBuild rs b1 st.prices = .ok b2 →
      env.swapsExtract b1 b2 = .ok sw →
      env.totalPairsBuild ps sw st.total_pairs = .ok b3 →
      env.volume24hBuild sw st.volume24h = .error e →
      handleBlock env start bc st n =
        ⟨.err ("volume24 builder: " ++ e),
         { st with pairs := b1, prices := b2, total_pairs := b3 },
         preTrace b1.deltas⟩) ∧
    (∀ ps b1 rs b2 sw b3 b4 e, env.pairExtract = .ok ps →
      env.pairsBuild ps st.pairs = .ok b1 →
      env.broadcast "pairs" b1.deltas = .ok () →
      env.reservesExtract b1 = .ok rs →
      env.pricesBuild rs b1 st.prices = .ok b2 →
      env.swapsExtract b1 b2 = .ok sw →
      env.totalPairsBuild ps sw st.total_pairs = .ok b3 →
      env.volume24hBuild sw st.volume24h = .ok b4 →
      env.storeBlock "pairs" b1 = .error e →
      handleBlock env start bc st n =
        ⟨.err e,
         { pairs := b1, total_pairs := b3, prices := b2, volume24h := b4 },
         preTrace b1.deltas ++ [.storeBlockEvt "pairs"]⟩) := by
  refine ⟨?_, ?_, ?_, ?_, ?_, ?_, ?_, ?_, ?_⟩
  · intro e h1
    rw [handleBlock_steady env start bc st n hn]
    simp [steadyStep, h1]
  · intro ps e h1 h2
    rw [handleBlock_steady env start bc st n hn]
    simp [steadyStep, h1, h2]
  · intro ps b1 e h1 h2 h3
    rw [handleBlock_steady env start bc st n hn]
    simp [steadyStep, h1, h2, h3]
  · intro ps b1 e h1 h2 h3 h4
    rw [handleBlock_steady env start bc st n hn]
    simp [steadyStep, h1, h2, h3, h4]
  · intro ps b1 rs e h1 h2 h3 h4 h5
    rw [handleBlock_steady env start bc st n hn]
    simp [steadyStep, h1, h2, h3, h4, h5]
  · intro ps b1 rs b2 e h1 h2 h3 h4 h5 h6
    rw [handleBlock_steady env start bc st n hn]
    simp [steadyStep, h1, h2, h3, h4, h5, h6]
  · intro ps b1 rs b2 sw e h1 h2 h3 h4 h5 h6 h7
    rw [handleBlock_steady env start bc st n hn]
    simp [steadyStep, h1, h2, h3, h4, h5, h6, h7]
  · intro ps b1 rs b2 sw b3 e h1 h2 h3 h4 h5 h6 h7 h8
    rw [handleBlock_steady env start bc st n hn]
    simp [steadyStep, h1, h2, h3, h4, h5, h6, h7, h8]
  · intro ps b1 rs b2 sw b3 b4 e h1 h2 h3 h4 h5 h6 h7 h8 h9
    rw [handleBlock_steady env start bc st n hn]
    simp [steadyStep, storeBlockAll, h1, h2, h3, h4, h5, h6, h7, h8, h9]

/-- Witness for C1 (amended): the reserves-extraction failure of `envC1`
leaves the built pairs store and its broadcast in place. -/
theorem c1_step_failure_propagation_witness :
    handleBlock envC1 0 10 st0 0 =
      ⟨HandlerResult.err ("processing reserves extractor: " ++ "boom"),
       { st0 with pairs := pairsBuilt },
       [Event.decode, Event.extractPairs, Event.buildPairs,
        Event.broadcastEvt "pairs" pairsBuilt.deltas,
        Event.extractReserves]⟩ :=
  (c1_step_failure_propagation envC1 0 10 st0 0 (by decide)).2.2.2.1
    ["0x1"] pairsBuilt "boom" rfl rfl rfl rfl

/-- C3: in every successfully processed steady-state block the state
builders run in dependency order — pairs first, then prices, then
total_pairs, then volume24h. -/
theorem c3_dependency_order (env : StepEnv) (start bc : Nat) (st : Stores)
    (n : Nat) (hn : n < uadd start bc)
    (hok : (handleBlock env start bc st n).result = HandlerResult.ok) :
    Event.buildPairs ∈ (handleBlock env start bc st n).events ∧
    Event.buildPrices ∈ (handleBlock env start bc st n).events ∧
    Event.buildTotalPairs ∈ (handleBlock env start bc st n).events ∧
    Event.buildVolume24h ∈ (handleBlock env start bc st n).events ∧
    (handleBlock env start bc st n).events.indexOf Event.buildPairs <
      (handleBlock env start bc st n).events.indexOf Event.buildPrices ∧
    (handleBlock env start bc st n).events.indexOf Event.buildPrices <
      (handleBlock env start bc st n).events.indexOf Event.buildTotalPairs ∧
    (handleBlock env start bc st n).events.indexOf Event.buildTotalPairs <
      (handleBlock env start bc st n).events.indexOf Event.buildVolume24h := by
  rw [handleBlock_steady env start bc st n hn] at hok ⊢
  rcases steadyStep_cases env st with ⟨_, _, ⟨d, hev, _⟩, _⟩ | ⟨m, herr, _⟩
  · rw [hev]
    have i1 : ((preTrace d ++ sbTrace) ++ flushTrace).indexOf
        Event.buildPairs = 2 := rfl
    have i2 : ((preTrace d ++ sbTrace) ++ flushTrace).indexOf
        Event.buildPrices = 5 := rfl
    have i3 : ((preTrace d ++ sbTrace) ++ flushTrace).indexOf
        Event.buildTotalPairs = 7 := rfl
    have i4 : ((preTrace d ++ sbTrace) ++ flushTrace).indexOf
        Event.buildVolume24h = 8 := rfl
    refine ⟨?_, ?_, ?_, ?_, ?_, ?_, ?_⟩ <;>
      simp [preTrace, sbTrace, flushTrace, i1, i2, i3, i4]
  · exact HandlerResult.noConfusion (herr.symm.trans hok)

/-- Witness for C3 at a concrete fully successful block. -/
theorem c3_dependency_order_witness :
    (handleBlock envOk 0 10 st0 0).events.indexOf Event.buildPairs <
      (handleBlock envOk 0 10 st0 0).events.indexOf Event.buildPrices :=
  (c3_dependency_order envOk 0 10 st0 0 (by decide) (by decide)).2.2.2.2.1

/-- C4 is false as stated: in a fully successfully processed block whose
prices build produced a delta, the only broadcast performed is the one on
topic "pairs"; the prices, total_pairs and volume24h deltas are never
broadcast to their topics. -/
theorem c4_counterexample :
    (handleBlock envC4 0 10 st0 0).result = HandlerResult.ok ∧
    envC4.pricesBuild [] st0.pairs st0.prices =
      Except.ok { name := "prices", kv := [("price:0x1", "2")],
                  deltas := [priceDelta] } ∧
    (handleBlock envC4 0 10 st0 0).events.filter isBroadcastEvt =
      [Event.broadcastEvt "pairs" []] ∧
    (handleBlock envC4 0 10 st0 0).events.filter isNonPairsBroadcast = [] :=
  ⟨by decide, rfl, by decide, by decide⟩

/-- C4 (amended): in every handler invocation the only topic ever broadcast
to is "pairs", and a successfully processed block performs exactly one
broadcast, carrying the pairs store's deltas. -/
theorem c4_only_pairs_broadcast (env : StepEnv) (start bc : Nat) (st : Stores)
    (n : Nat) :
    (handleBlock env start bc st n).events.filter isNonPairsBroadcast = [] ∧
    ((handleBlock env start bc st n).result = HandlerResult.ok →
      ∃ d, (handleBlock env start bc st n).events.filter isBroadcastEvt =
        [Event.broadcastEvt "pairs" d]) := by
  unfold handleBlock
  by_cases hc : uadd start bc ≤ n
  · rw [if_pos hc]
    exact ⟨rfl, fun h => HandlerResult.noConfusion h⟩
  · rw [if_neg hc]
    rcases steadyStep_cases env st with ⟨hok, _, ⟨d, _, hbf⟩, hnf, _⟩ |
      ⟨m, herr, _, hnf⟩
    · exact ⟨hnf, fun _ => ⟨d, hbf⟩⟩
    · exact ⟨hnf, fun h => HandlerResult.noConfusion (herr.symm.trans h)⟩

/-- Witness for C4 (amended) at a concrete fully successful block. -/
theorem c4_only_pairs_broadcast_witness :
    ∃ d, (handleBlock envC4 0 10 st0 0).events.filter isBroadcastEvt =
      [Event.broadcastEvt "pairs" d] :=
  (c4_only_pairs_broadcast envC4 0 10 st0 0).2 (by decide)

/-- C5 is false as stated: at the stop transition a failing `WriteState`
and a failing cache `Save` still produce the EOF sentinel (their errors are
discarded), and a failing cache `Load` at startup changes nothing. -/
theorem c5_counterexample :
    (handleBlock envC5 0 5 st0 10).result = HandlerResult.eof ∧
    runRootSetup (Except.error "load failed") (fun _ => Except.ok ()) 100 0 =
      runRootSetup (Except.ok ()) (fun _ => Except.ok ()) 100 0 :=
  ⟨rfl, rfl⟩

/-- C5 (amended): steady-state per-block step errors are propagated — a
failed step never yields success or the EOF sentinel — but `WriteState`
errors during the stop transition, cache `Save` errors at termination, and
the cache `Load` result at startup are discarded. -/
theorem c5_error_propagation (env : StepEnv) (start bc : Nat) (st : Stores)
    (n : Nat) :
    (uadd start bc ≤ n →
      (handleBlock env start bc st n).result = HandlerResult.eof) ∧
    (∀ cl cl2 inits s g,
      runRootSetup cl inits s g = runRootSetup cl2 inits s g) ∧
    (n < uadd start bc →
      (handleBlock env start bc st n).result ≠ HandlerResult.eof ∧
      ((handleBlock env start bc st n).result = HandlerResult.ok ↔
        stepsAllOk env st = true)) := by
  refine ⟨fun h => by rw [handleBlock_stop env start bc st n h],
    fun cl cl2 inits s g => rfl, fun hn => ?_⟩
  rw [handleBlock_steady env start bc st n hn]
  rcases steadyStep_cases env st with ⟨hok, hall, _⟩ | ⟨m, herr, hfalse, _⟩
  · exact ⟨fun h2 => HandlerResult.noConfusion (hok.symm.trans h2),
      iff_of_true hok hall⟩
  · exact ⟨fun h2 => HandlerResult.noConfusion (herr.symm.trans h2),
      iff_of_false (fun h2 => HandlerResult.noConfusion (herr.symm.trans h2))
        (by simp [hfalse])⟩

/-- Witness for C5 (amended): the stop transition under failing WriteState
and Save oracles. -/
theorem c5_error_propagation_witness :
    (handleBlock envC5 0 5 st0 10).result = HandlerResult.eof :=
  (c5_error_propagation envC5 0 5 st0 10).1 (by decide)

/-- C6: when a block's processing completes successfully, every one of the
four stores is flushed exactly once, only after the pairs broadcast and
after every store's `StoreBlock` call, and each store's delta buffer is
empty afterwards. -/
theorem c6_flush_after_commit (env : StepEnv) (start bc : Nat) (st : Stores)
    (n : Nat)
    (hok : (handleBlock env start bc st n).result = HandlerResult.ok) :
    ∃ d, (handleBlock env start bc st n).events =
        (preTrace d ++ sbTrace) ++ flushTrace ∧
      Event.broadcastEvt "pairs" d ∈ preTrace d ++ sbTrace ∧
      (∀ s, s ∈ storeNames → Event.storeBlockEvt s ∈ preTrace d ++ sbTrace) ∧
      (∀ s, s ∈ storeNames → Event.flushEvt s ∉ preTrace d ++ sbTrace) ∧
      (∀ s, s ∈ storeNames → flushTrace.count (Event.flushEvt s) = 1) ∧
      (handleBlock env start bc st n).stores.pairs.deltas = [] ∧
      (handleBlock env start bc st n).stores.total_pairs.deltas = [] ∧
      (handleBlock env start bc st n).stores.prices.deltas = [] ∧
      (handleBlock env start bc st n).stores.volume24h.deltas = [] := by
  by_cases hc : uadd start bc ≤ n
  · rw [handleBlock_stop env start bc st n hc] at hok
    exact absurd hok (by simp)
  · push_neg at hc
    rw [handleBlock_steady env start bc st n hc] at hok ⊢
    rcases steadyStep_cases env st with
      ⟨_, _, ⟨d, hev, _⟩, _, h1, h2, h3, h4⟩ | ⟨m, herr, _⟩
    · refine ⟨d, hev, ?_, ?_, ?_, ?_, h1, h2, h3, h4⟩
      · simp [preTrace, sbTrace]
      · intro s hs
        simp only [storeNames, List.mem_cons, List.not_mem_nil, or_false] at hs
        rcases hs with rfl | rfl | rfl | rfl <;> simp [preTrace, sbTrace]
      · intro s hs
        simp only [storeNames, List.mem_cons, List.not_mem_nil, or_false] at hs
        rcases hs with rfl | rfl | rfl | rfl <;> simp [preTrace, sbTrace]
      · intro s hs
        simp only [storeNames, List.mem_cons, List.not_mem_nil, or_false] at hs
        rcases hs with rfl | rfl | rfl | rfl <;> decide
    · exact HandlerResult.noConfusion (herr.symm.trans hok)

/-- Witness for C6 at a concrete fully successful block. -/
theorem c6_flush_after_commit_witness :
    ∃ d, (handleBlock envOk 0 10 st0 0).events =
      (preTrace d ++ sbTrace) ++ flushTrace := by
  obtain ⟨d, hev, _⟩ := c6_flush_after_commit envOk 0 10 st0 0 (by decide)
  exact ⟨d, hev⟩

end SubstreamPlayground
